import Mathlib

/-!
Shallow embedding of `src/module.rs` from the inkwell repository: a safe
wrapper over the LLVM C API.  Foreign (LLVM) calls are modelled as pure
functions over an explicit backend state, parametrised by the status codes
the backend may return; every call across the foreign boundary is recorded
as an `Event` so that ordering and resource-disposal claims can be stated
as properties of the emitted trace.
-/

set_option autoImplicit false

namespace Inkwell

/-- Decidable equality on `Except`, so that concrete runs of the fallible
operations can be checked by evaluation. -/
instance {ε α : Type} [DecidableEq ε] [DecidableEq α] : DecidableEq (Except ε α) :=
  fun x y =>
  match x, y with
  | Except.error a, Except.error b =>
    if h : a = b then Decidable.isTrue (congrArg Except.error h)
    else Decidable.isFalse (fun hc => h (Except.error.inj hc))
  | Except.error _, Except.ok _ => Decidable.isFalse (fun hc => Except.noConfusion hc)
  | Except.ok _, Except.error _ => Decidable.isFalse (fun hc => Except.noConfusion hc)
  | Except.ok a, Except.ok b =>
    if h : a = b then Decidable.isTrue (congrArg Except.ok h)
    else Decidable.isFalse (fun hc => h (Except.ok.inj hc))

/-- A native pointer/handle.  `0` plays the role of the null pointer. -/
abbrev Handle := Nat

/-- Unrecoverable aborts (Rust panics): `assert!` failure in `Module::new`,
and `CString::new(..).expect(..)` failure on a string holding a NUL byte. -/
inductive Panic where
  | assertFailed
  | cstringNul
deriving DecidableEq, Repr

/-- Observable events at the foreign-function boundary, in call order.
Also records text emission to the process output channels. -/
inductive Event where
  | linkInMCJIT
  | initNativeTarget
  | initNativeAsmPrinter
  | initNativeAsmParser
  | initNativeDisassembler
  | linkInInterpreter
  | createEngineForModule
  | copyMessage (s : String)
  | disposeMessage (s : String)
  | emitStderr (s : String)
  | emitStdout (s : String)
  | addFunctionCall (name : String)
  | getNamedFunctionCall (name : String)
  | getTypeByNameCall (name : String)
  | setTargetCall (triple : String)
  | addGlobalCall (name : String)
  | setInitializerCall (value : Handle)
  | writeBitcodeCall (path : String)
  | createFunctionPassManagerCall
  | setDataLayoutCall (layout : String)
  | dumpModuleCall
deriving DecidableEq, Repr

/-- `CString::new(s).expect(..)`: panics iff the Rust string holds a NUL
byte (all NULs are interior for `CString::new`); otherwise yields the same
text. -/
def cStringNew (s : String) : Except Panic String :=
  if s.data.contains (Char.ofNat 0) then Except.error Panic.cstringNul
  else Except.ok s

/-- A global variable recorded in the native module: name, type handle,
value handle, optional initializer value handle. -/
structure GlobalVar where
  name : String
  ty : Handle
  value : Handle
  init : Option Handle
deriving DecidableEq, Repr

/-- The mutable native state behind one LLVM module handle, as far as the
wrapped operations observe it: named functions, named types, globals,
target triple, data layout, and a fresh-handle supply (fresh handles are
never 0, i.e. never null). -/
structure ModuleState where
  functions : List (String × Handle)
  types : List (String × Handle)
  globals : List GlobalVar
  target : String
  dataLayout : String
  nextHandle : Handle
deriving DecidableEq, Repr

/-- `LLVMGetNamedFunction`: exact-name lookup in the module; the null
handle `0` signals absence. -/
def llvmGetNamedFunction (st : ModuleState) (name : String) : Handle :=
  match st.functions.find? (fun p => p.1 = name) with
  | some p => p.2
  | none => 0

/-- `LLVMGetTypeByName`: exact-name lookup of a named type; the null
handle `0` signals absence. -/
def llvmGetTypeByName (st : ModuleState) (name : String) : Handle :=
  match st.types.find? (fun p => p.1 = name) with
  | some p => p.2
  | none => 0

/-- `LLVMAddFunction`: records a new function under the given name and
returns its (fresh, non-null) value handle. -/
def llvmAddFunction (st : ModuleState) (name : String) (_fnTy : Handle) :
    Handle × ModuleState :=
  (st.nextHandle + 1,
   { st with functions := (name, st.nextHandle + 1) :: st.functions,
             nextHandle := st.nextHandle + 1 })

/-- `LLVMAddGlobal`: records a new global of the given type and returns
its (fresh, non-null) pointer handle, with no initializer yet. -/
def llvmAddGlobal (st : ModuleState) (ty : Handle) (name : String) :
    Handle × ModuleState :=
  (st.nextHandle + 1,
   { st with globals := ⟨name, ty, st.nextHandle + 1, none⟩ :: st.globals,
             nextHandle := st.nextHandle + 1 })

/-- `LLVMSetInitializer`: installs an initializer on the global with the
given value handle. -/
def llvmSetInitializer (st : ModuleState) (value : Handle) (initVal : Handle) :
    ModuleState :=
  { st with globals :=
      st.globals.map (fun g => if g.value = value then { g with init := some initVal } else g) }

/-- `FunctionValue`: lightweight non-owning wrapper of a native value
handle (`FunctionValue::new`). -/
structure FunctionValue where
  value : Handle
deriving DecidableEq, Repr

/-- `PointerValue`: lightweight non-owning wrapper of a native value
handle (`PointerValue::new`). -/
structure PointerValue where
  value : Handle
deriving DecidableEq, Repr

/-- `BasicTypeEnum`: lightweight non-owning wrapper of a native type
handle (`BasicTypeEnum::new`). -/
structure BasicTypeEnum where
  ty : Handle
deriving DecidableEq, Repr

/-- `ExecutionEngine`: a native engine handle plus the recorded JIT flag
(`ExecutionEngine::new(execution_engine, jit_mode)`). -/
structure ExecutionEngine where
  execution_engine : Handle
  jit_mode : Bool
deriving DecidableEq, Repr

/-- `PassManager`: wrapper of a native function-pass-manager handle. -/
structure PassManager where
  pass_manager : Handle
deriving DecidableEq, Repr

/-- The `Module` wrapper: holds exactly one native module handle. -/
structure Module where
  module : Handle
deriving DecidableEq, Repr

/-- `Module::new`: `assert!(!module.is_null())` aborts fatally on a null
handle, otherwise stores the handle. -/
def Module.new (module : Handle) : Except Panic Module :=
  if module = 0 then Except.error Panic.assertFailed
  else Except.ok { module := module }

/-- `Module::add_function`: CString conversion (panics on NUL), then
`LLVMAddFunction`, then wraps the returned value handle.  Returns the
result paired with the trace of foreign calls made. -/
def Module.add_function (_m : Module) (st : ModuleState) (name : String)
    (return_type : Handle) :
    Except Panic (FunctionValue × ModuleState) × List Event :=
  match cStringNew name with
  | Except.error p => (Except.error p, [])
  | Except.ok c =>
    let r := llvmAddFunction st c return_type
    (Except.ok ({ value := r.1 }, r.2), [Event.addFunctionCall c])

/-- `Module::get_function`: CString conversion (panics on NUL), then
`LLVMGetNamedFunction`; a null handle is returned as `none`, a non-null
handle is wrapped in `some`. -/
def Module.get_function (_m : Module) (st : ModuleState) (name : String) :
    Except Panic (Option FunctionValue) × List Event :=
  match cStringNew name with
  | Except.error p => (Except.error p, [])
  | Except.ok c =>
    let value := llvmGetNamedFunction st c
    if value = 0 then (Except.ok none, [Event.getNamedFunctionCall c])
    else (Except.ok (some { value := value }), [Event.getNamedFunctionCall c])

/-- `Module::get_type`: CString conversion (panics on NUL), then
`LLVMGetTypeByName`; a null handle is returned as `none`, a non-null
handle is wrapped in `some`. -/
def Module.get_type (_m : Module) (st : ModuleState) (name : String) :
    Except Panic (Option BasicTypeEnum) × List Event :=
  match cStringNew name with
  | Except.error p => (Except.error p, [])
  | Except.ok c =>
    let ty := llvmGetTypeByName st c
    if ty = 0 then (Except.ok none, [Event.getTypeByNameCall c])
    else (Except.ok (some { ty := ty }), [Event.getTypeByNameCall c])

/-- `Module::set_target`: CString conversion (panics on NUL), then
`LLVMSetTarget`. -/
def Module.set_target (_m : Module) (st : ModuleState) (target_triple : String) :
    Except Panic ModuleState × List Event :=
  match cStringNew target_triple with
  | Except.error p => (Except.error p, [])
  | Except.ok c => (Except.ok { st with target := c }, [Event.setTargetCall c])

/-- `Module::add_global`: CString conversion (panics on NUL), then
`LLVMAddGlobal`, then `LLVMSetInitializer` when an initializer is given,
then wraps the pointer handle. -/
def Module.add_global (_m : Module) (st : ModuleState) (ty : Handle)
    (init_value : Option Handle) (name : String) :
    Except Panic (PointerValue × ModuleState) × List Event :=
  match cStringNew name with
  | Except.error p => (Except.error p, [])
  | Except.ok c =>
    let r := llvmAddGlobal st ty c
    match init_value with
    | some init_val =>
      (Except.ok ({ value := r.1 }, llvmSetInitializer r.2 r.1 init_val),
       [Event.addGlobalCall c, Event.setInitializerCall r.1])
    | none => (Except.ok ({ value := r.1 }, r.2), [Event.addGlobalCall c])

/-- `Module::write_bitcode_to_file`: CString conversion (panics on NUL),
then `LLVMWriteBitcodeToFile`, whose status code is supplied by the
backend (`writeCode`); returns `code == 0`. -/
def Module.write_bitcode_to_file (_m : Module) (writeCode : Nat) (path : String) :
    Except Panic Bool × List Event :=
  match cStringNew path with
  | Except.error p => (Except.error p, [])
  | Except.ok c => (Except.ok (decide (writeCode = 0)), [Event.writeBitcodeCall c])

/-- `Module::create_function_pass_manager`: wraps a freshly created
pass-manager handle. -/
def Module.create_function_pass_manager (_m : Module) (st : ModuleState) :
    PassManager × ModuleState × List Event :=
  ({ pass_manager := st.nextHandle + 1 },
   { st with nextHandle := st.nextHandle + 1 },
   [Event.createFunctionPassManagerCall])

/-- `Module::set_data_layout`: applies the layout string via
`LLVMSetDataLayout`. -/
def Module.set_data_layout (_m : Module) (st : ModuleState) (layout : String) :
    ModuleState × List Event :=
  ({ st with dataLayout := layout }, [Event.setDataLayoutCall layout])

/-- `Module::dump`: `LLVMDumpModule` emits the textual module form to the
debug channel. -/
def Module.dump (_m : Module) (_st : ModuleState) : List Event :=
  [Event.dumpModuleCall]

/-- The backend responses consumed by `Module::create_execution_engine`:
the status code of each native bring-up step, the status code of
`LLVMCreateExecutionEngineForModule`, the engine handle it writes on
success and the error-message buffer contents it writes on failure. -/
structure EngineBackend where
  targetCode : Nat
  asmPrinterCode : Nat
  asmParserCode : Nat
  disassemblerCode : Nat
  createCode : Nat
  engineHandle : Handle
  createErrMsg : String
deriving DecidableEq, Repr

/-- `Module::create_execution_engine`: links in MCJIT iff `jit_mode`, runs
the four native bring-up calls aborting with a fixed error string when a
call returns status code 1, links in the interpreter, then requests engine
creation; a creation status code of 1 copies the foreign error buffer into
an owned string and then disposes the buffer, returning the text as the
error.  Returns the result paired with the trace of foreign calls made. -/
def Module.create_execution_engine (_m : Module) (b : EngineBackend)
    (jit_mode : Bool) : Except String ExecutionEngine × List Event :=
  let t0 := if jit_mode then [Event.linkInMCJIT] else []
  let t1 := t0 ++ [Event.initNativeTarget]
  if b.targetCode = 1 then
    (Except.error "Unknown error in initializing native target", t1)
  else
    let t2 := t1 ++ [Event.initNativeAsmPrinter]
    if b.asmPrinterCode = 1 then
      (Except.error "Unknown error in initializing native asm printer", t2)
    else
      let t3 := t2 ++ [Event.initNativeAsmParser]
      if b.asmParserCode = 1 then
        (Except.error "Unknown error in initializing native asm parser", t3)
      else
        let t4 := t3 ++ [Event.initNativeDisassembler]
        if b.disassemblerCode = 1 then
          (Except.error "Unknown error in initializing native disassembler", t4)
        else
          let t5 := t4 ++ [Event.linkInInterpreter, Event.createEngineForModule]
          if b.createCode = 1 then
            (Except.error b.createErrMsg,
             t5 ++ [Event.copyMessage b.createErrMsg,
                    Event.disposeMessage b.createErrMsg])
          else
            (Except.ok { execution_engine := b.engineHandle, jit_mode := jit_mode }, t5)

/-- Receiver mode of a Rust method: consuming (`self`) or borrowing
(`&self`). -/
inductive ReceiverMode where
  | byValue
  | byRef
deriving DecidableEq, Repr

/-- The receiver of `Module::create_execution_engine` in the source is
`&self`: the module is borrowed, not consumed. -/
def create_execution_engine_receiver : ReceiverMode := ReceiverMode.byRef

/-- The backend responses consumed by `Module::verify`: whether the module
is malformed (status code 1) and the diagnostic text the verifier would
report. -/
structure VerifyBackend where
  broken : Bool
  diag : String
deriving DecidableEq, Repr

/-- `LLVMVerifierFailureAction` as selected by `Module::verify`. -/
inductive VerifierFailureAction where
  | printMessageAction
  | returnStatusAction
deriving DecidableEq, Repr

/-- `LLVMVerifyModule` as called with out-parameter pointer `outIsNull`:
returns the status code (1 iff the module is broken), the events it emits
(with the print action it writes the diagnostics to stderr itself when the
module is broken), and the number of foreign message buffers it allocates
(one iff the out-parameter pointer is non-null). -/
def llvmVerifyModule (b : VerifyBackend) (action : VerifierFailureAction)
    (outIsNull : Bool) : Nat × List Event × Nat :=
  ((if b.broken then 1 else 0),
   (if b.broken ∧ action = VerifierFailureAction.printMessageAction
    then [Event.emitStderr b.diag] else []),
   (if outIsNull then 0 else 1))

/-- `Module::verify`: the local `err_str: *mut *mut i8 = zeroed()` is a
null pointer, passed as the out-parameter; the action is print-message
when `print` is set, return-status otherwise.  The source then runs its
print-and-dispose block only when `code == 1 && !err_str.is_null()`.
Returns `code == 0`, the emitted trace, and the number of foreign message
buffers still allocated on return. -/
def Module.verify (_m : Module) (b : VerifyBackend) (print : Bool) :
    Bool × List Event × Nat :=
  let err_str_is_null : Bool := true
  let action := if print then VerifierFailureAction.printMessageAction
    else VerifierFailureAction.returnStatusAction
  let r := llvmVerifyModule b action err_str_is_null
  if r.1 = 1 ∧ err_str_is_null = false then
    (decide (r.1 = 0),
     r.2.1 ++ (if print then [Event.emitStdout b.diag] else [])
          ++ [Event.disposeMessage b.diag],
     r.2.2 - 1)
  else
    (decide (r.1 = 0), r.2.1, r.2.2)

/-- The public operations of the `Module` wrapper, tagged with the backend
responses they consume. -/
inductive ModuleOp where
  | addFunction (name : String) (fnTy : Handle)
  | getFunction (name : String)
  | getType (name : String)
  | setTarget (triple : String)
  | addGlobal (ty : Handle) (init : Option Handle) (name : String)
  | writeBitcode (writeCode : Nat) (path : String)
  | createFunctionPassManager
  | createExecutionEngine (b : EngineBackend) (jit_mode : Bool)
  | verify (b : VerifyBackend) (print : Bool)
  | setDataLayout (layout : String)
  | dump
deriving DecidableEq, Repr

/-- Runs one public operation against a module wrapper and the native
state.  Every method takes `&self`, so the wrapper (and the handle stored
in it) survives unchanged whenever the call returns; a `Panic` models an
unwinding abort. -/
def Module.runOp (op : ModuleOp) (m : Module) (st : ModuleState) :
    Except Panic (Module × ModuleState) :=
  match op with
  | ModuleOp.addFunction name fnTy =>
    match (m.add_function st name fnTy).1 with
    | Except.error p => Except.error p
    | Except.ok r => Except.ok (m, r.2)
  | ModuleOp.getFunction name =>
    match (m.get_function st name).1 with
    | Except.error p => Except.error p
    | Except.ok _ => Except.ok (m, st)
  | ModuleOp.getType name =>
    match (m.get_type st name).1 with
    | Except.error p => Except.error p
    | Except.ok _ => Except.ok (m, st)
  | ModuleOp.setTarget triple =>
    match (m.set_target st triple).1 with
    | Except.error p => Except.error p
    | Except.ok st2 => Except.ok (m, st2)
  | ModuleOp.addGlobal ty init name =>
    match (m.add_global st ty init name).1 with
    | Except.error p => Except.error p
    | Except.ok r => Except.ok (m, r.2)
  | ModuleOp.writeBitcode writeCode path =>
    match (m.write_bitcode_to_file writeCode path).1 with
    | Except.error p => Except.error p
    | Except.ok _ => Except.ok (m, st)
  | ModuleOp.createFunctionPassManager =>
    Except.ok (m, (m.create_function_pass_manager st).2.1)
  | ModuleOp.createExecutionEngine b jit_mode =>
    match (m.create_execution_engine b jit_mode).1 with
    | Except.error _ => Except.ok (m, st)
    | Except.ok _ => Except.ok (m, st)
  | ModuleOp.verify b print =>
    match m.verify b print with
    | _ => Except.ok (m, st)
  | ModuleOp.setDataLayout layout => Except.ok (m, (m.set_data_layout st layout).1)
  | ModuleOp.dump => Except.ok (m, st)

/-- A fresh module state with no declarations. -/
def emptyState : ModuleState :=
  { functions := [], types := [], globals := [], target := "", dataLayout := "",
    nextHandle := 0 }

/-- The full ordered foreign-call sequence of a run of
`create_execution_engine` in which every bring-up step succeeds: MCJIT
linked first iff `jit` was requested, then the four native bring-up calls
in order, then the interpreter, then the engine-creation request. -/
def initTrace (jit : Bool) : List Event :=
  (if jit then [Event.linkInMCJIT] else []) ++
  [Event.initNativeTarget, Event.initNativeAsmPrinter, Event.initNativeAsmParser,
   Event.initNativeDisassembler, Event.linkInInterpreter, Event.createEngineForModule]

/-- C1: `verify(print)` returns true iff the backend verification status
code is zero; on failure with `print` set the backend diagnostic text is
emitted to stderr; with `print` unset the run is silent except for the
boolean; and no foreign message buffer remains allocated on return (the
out-parameter passed to the verifier is the null pointer, so no buffer is
ever produced). -/
theorem verify_status_and_diagnostics (m : Module) (b : VerifyBackend) (print : Bool) :
    ((m.verify b print).1 = true ↔ b.broken = false) ∧
    (b.broken = true → print = true →
      Event.emitStderr b.diag ∈ (m.verify b print).2.1) ∧
    (print = false → (m.verify b print).2.1 = []) ∧
    (m.verify b print).2.2 = 0 := by
  cases hb : b.broken <;> cases print <;>
    simp [Module.verify, llvmVerifyModule, hb]

/-- Witness for C1 at a concrete broken module with `print = true`. -/
theorem verify_status_and_diagnostics_witness :
    Event.emitStderr "bad" ∈
      (({ module := 1 } : Module).verify { broken := true, diag := "bad" } true).2.1 ∧
    (({ module := 1 } : Module).verify { broken := true, diag := "bad" } true).2.2 = 0 :=
  ⟨(verify_status_and_diagnostics { module := 1 } { broken := true, diag := "bad" } true).2.1
      rfl rfl,
   (verify_status_and_diagnostics { module := 1 } { broken := true, diag := "bad" } true).2.2.2⟩

/-- C2 (code bug): `create_execution_engine` takes its module by `&self`,
so the module is not consumed; after a successful engine creation the very
same module still accepts `add_function` — further mutation is
structurally possible, contradicting the claimed type-level ownership
transfer (the source itself remarks `// Should take ownership of module`). -/
theorem create_execution_engine_does_not_consume_module :
    create_execution_engine_receiver = ReceiverMode.byRef ∧
    (({ module := 1 } : Module).create_execution_engine
        { targetCode := 0, asmPrinterCode := 0, asmParserCode := 0,
          disassemblerCode := 0, createCode := 0, engineHandle := 7,
          createErrMsg := "" } true).1
      = Except.ok { execution_engine := 7, jit_mode := true } ∧
    (({ module := 1 } : Module).add_function emptyState "f" 3).1
      = Except.ok ({ value := 1 },
          { functions := [("f", 1)], types := [], globals := [], target := "",
            dataLayout := "", nextHandle := 1 }) := by
  decide

/-- C3 fails as stated: the source aborts only on a status code of exactly
1, so a non-zero code of 2 from the native-target step does not abort — the
asm-printer step still runs and the call even returns success. -/
theorem engine_init_nonzero_code_counterexample :
    ({ targetCode := 2, asmPrinterCode := 0, asmParserCode := 0,
       disassemblerCode := 0, createCode := 0, engineHandle := 0,
       createErrMsg := "" } : EngineBackend).targetCode ≠ 0 ∧
    Event.initNativeAsmPrinter ∈
      (({ module := 1 } : Module).create_execution_engine
        { targetCode := 2, asmPrinterCode := 0, asmParserCode := 0,
          disassemblerCode := 0, createCode := 0, engineHandle := 0,
          createErrMsg := "" } false).2 ∧
    (({ module := 1 } : Module).create_execution_engine
        { targetCode := 2, asmPrinterCode := 0, asmParserCode := 0,
          disassemblerCode := 0, createCode := 0, engineHandle := 0,
          createErrMsg := "" } false).1
      = Except.ok { execution_engine := 0, jit_mode := false } := by
  decide

/-- C3 amended: each of the four native bring-up steps that returns status
code exactly 1 aborts the remaining steps and yields its own distinct
error-message string (the four messages are pairwise distinct); codes
other than 1 are treated as success. -/
theorem engine_init_failures_abort (m : Module) (b : EngineBackend) (jit : Bool) :
    (b.targetCode = 1 →
      (m.create_execution_engine b jit).1
          = Except.error "Unknown error in initializing native target" ∧
      (m.create_execution_engine b jit).2
          = (if jit then [Event.linkInMCJIT] else []) ++ [Event.initNativeTarget]) ∧
    (b.targetCode ≠ 1 → b.asmPrinterCode = 1 →
      (m.create_execution_engine b jit).1
          = Except.error "Unknown error in initializing native asm printer" ∧
      (m.create_execution_engine b jit).2
          = (if jit then [Event.linkInMCJIT] else [])
            ++ [Event.initNativeTarget, Event.initNativeAsmPrinter]) ∧
    (b.targetCode ≠ 1 → b.asmPrinterCode ≠ 1 → b.asmParserCode = 1 →
      (m.create_execution_engine b jit).1
          = Except.error "Unknown error in initializing native asm parser" ∧
      (m.create_execution_engine b jit).2
          = (if jit then [Event.linkInMCJIT] else [])
            ++ [Event.initNativeTarget, Event.initNativeAsmPrinter,
                Event.initNativeAsmParser]) ∧
    (b.targetCode ≠ 1 → b.asmPrinterCode ≠ 1 → b.asmParserCode ≠ 1 →
        b.disassemblerCode = 1 →
      (m.create_execution_engine b jit).1
          = Except.error "Unknown error in initializing native disassembler" ∧
      (m.create_execution_engine b jit).2
          = (if jit then [Event.linkInMCJIT] else [])
            ++ [Event.initNativeTarget, Event.initNativeAsmPrinter,
                Event.initNativeAsmParser, Event.initNativeDisassembler]) ∧
    ("Unknown error in initializing native target"
        ≠ "Unknown error in initializing native asm printer" ∧
     "Unknown error in initializing native target"
        ≠ "Unknown error in initializing native asm parser" ∧
     "Unknown error in initializing native target"
        ≠ "Unknown error in initializing native disassembler" ∧
     "Unknown error in initializing native asm printer"
        ≠ "Unknown error in initializing native asm parser" ∧
     "Unknown error in initializing native asm printer"
        ≠ "Unknown error in initializing native disassembler" ∧
     "Unknown error in initializing native asm parser"
        ≠ "Unknown error in initializing native disassembler") := by
  refine ⟨?_, ?_, ?_, ?_, by decide⟩ <;> intros <;>
    simp_all [Module.create_execution_engine]

/-- Witness for C3 amended: the asm-parser step failing with code 1 aborts
before the disassembler step. -/
theorem engine_init_failures_abort_witness :
    (({ module := 1 } : Module).create_execution_engine
        { targetCode := 0, asmPrinterCode := 0, asmParserCode := 1,
          disassemblerCode := 0, createCode := 0, engineHandle := 0,
          createErrMsg := "" } false).1
      = Except.error "Unknown error in initializing native asm parser" ∧
    (({ module := 1 } : Module).create_execution_engine
        { targetCode := 0, asmPrinterCode := 0, asmParserCode := 1,
          disassemblerCode := 0, createCode := 0, engineHandle := 0,
          createErrMsg := "" } false).2
      = [Event.initNativeTarget, Event.initNativeAsmPrinter,
         Event.initNativeAsmParser] :=
  (engine_init_failures_abort { module := 1 }
      { targetCode := 0, asmPrinterCode := 0, asmParserCode := 1,
        disassemblerCode := 0, createCode := 0, engineHandle := 0,
        createErrMsg := "" } false).2.2.1 (by decide) (by decide) rfl

/-- C4: `create_execution_engine` performs its steps in the required
order: MCJIT is linked into the trace iff `jit_mode` is requested, and
whenever no bring-up step fails the emitted trace starts with the full
ordered sequence — optional MCJIT, native target, asm printer, asm parser,
disassembler, interpreter, and only then the engine-creation request. -/
theorem engine_init_order (m : Module) (b : EngineBackend) (jit : Bool) :
    (Event.linkInMCJIT ∈ (m.create_execution_engine b jit).2 ↔ jit = true) ∧
    (b.targetCode ≠ 1 → b.asmPrinterCode ≠ 1 → b.asmParserCode ≠ 1 →
        b.disassemblerCode ≠ 1 →
      ∃ rest, (m.create_execution_engine b jit).2 = initTrace jit ++ rest) := by
  constructor
  · cases jit <;> simp only [Module.create_execution_engine] <;>
      split_ifs <;> simp_all
  · intro h1 h2 h3 h4
    by_cases h5 : b.createCode = 1
    · exact ⟨[Event.copyMessage b.createErrMsg, Event.disposeMessage b.createErrMsg],
        by simp [Module.create_execution_engine, initTrace, h1, h2, h3, h4, h5]⟩
    · exact ⟨[], by simp [Module.create_execution_engine, initTrace, h1, h2, h3, h4, h5]⟩

/-- Witness for C4: a fully successful JIT-mode run emits exactly the
ordered bring-up sequence. -/
theorem engine_init_order_witness :
    ∃ rest,
      (({ module := 1 } : Module).create_execution_engine
        { targetCode := 0, asmPrinterCode := 0, asmParserCode := 0,
          disassemblerCode := 0, createCode := 0, engineHandle := 7,
          createErrMsg := "" } true).2 = initTrace true ++ rest :=
  (engine_init_order { module := 1 }
      { targetCode := 0, asmPrinterCode := 0, asmParserCode := 0,
        disassemblerCode := 0, createCode := 0, engineHandle := 7,
        createErrMsg := "" } true).2
    (by decide) (by decide) (by decide) (by decide)

/-- C5: when engine creation itself fails (status code 1) after a
successful bring-up, the foreign error buffer is copied and only then
disposed — the trace ends with the copy followed by the single disposal —
and the copied text is returned as the error; when engine creation
succeeds, no disposal happens at all. -/
theorem engine_creation_error_copy_then_dispose (m : Module) (b : EngineBackend)
    (jit : Bool) :
    b.targetCode ≠ 1 → b.asmPrinterCode ≠ 1 → b.asmParserCode ≠ 1 →
    b.disassemblerCode ≠ 1 →
    ((b.createCode = 1 →
        (m.create_execution_engine b jit).1 = Except.error b.createErrMsg ∧
        (m.create_execution_engine b jit).2
          = initTrace jit ++ [Event.copyMessage b.createErrMsg,
                              Event.disposeMessage b.createErrMsg] ∧
        (m.create_execution_engine b jit).2.count
            (Event.disposeMessage b.createErrMsg) = 1) ∧
     (b.createCode ≠ 1 →
        (m.create_execution_engine b jit).1
          = Except.ok { execution_engine := b.engineHandle, jit_mode := jit } ∧
        ∀ s, Event.disposeMessage s ∉ (m.create_execution_engine b jit).2)) := by
  intro h1 h2 h3 h4
  constructor
  · intro h5
    refine ⟨?_, ?_, ?_⟩ <;>
      cases jit <;>
      simp [Module.create_execution_engine, initTrace, h1, h2, h3, h4, h5,
        List.count_append, List.count_cons]
  · intro h5
    constructor
    · simp [Module.create_execution_engine, h1, h2, h3, h4, h5]
    · intro s
      cases jit <;>
        simp [Module.create_execution_engine, h1, h2, h3, h4, h5]

/-- Witness for C5 at a concrete failing engine creation. -/
theorem engine_creation_error_copy_then_dispose_witness :
    (({ module := 1 } : Module).create_execution_engine
        { targetCode := 0, asmPrinterCode := 0, asmParserCode := 0,
          disassemblerCode := 0, createCode := 1, engineHandle := 0,
          createErrMsg := "no engine" } false).1 = Except.error "no engine" ∧
    (({ module := 1 } : Module).create_execution_engine
        { targetCode := 0, asmPrinterCode := 0, asmParserCode := 0,
          disassemblerCode := 0, createCode := 1, engineHandle := 0,
          createErrMsg := "no engine" } false).2
      = initTrace false ++ [Event.copyMessage "no engine",
                            Event.disposeMessage "no engine"] :=
  ⟨((engine_creation_error_copy_then_dispose { module := 1 }
      { targetCode := 0, asmPrinterCode := 0, asmParserCode := 0,
        disassemblerCode := 0, createCode := 1, engineHandle := 0,
        createErrMsg := "no engine" } false (by decide) (by decide) (by decide)
      (by decide)).1 rfl).1,
   ((engine_creation_error_copy_then_dispose { module := 1 }
      { targetCode := 0, asmPrinterCode := 0, asmParserCode := 0,
        disassemblerCode := 0, createCode := 1, engineHandle := 0,
        createErrMsg := "no engine" } false (by decide) (by decide) (by decide)
      (by decide)).1 rfl).2.1⟩

/-- C6: for a null-free name, `get_function` and `get_type` map the
backend null-handle sentinel to `none` — in particular a name never
declared yields `Except.ok none`, never a panic or error — and a non-null
backend handle is wrapped in `some`. -/
theorem lookup_absent_is_none (m : Module) (st : ModuleState) (name : String) :
    Char.ofNat 0 ∉ name.data →
    ((∀ p ∈ st.functions, p.1 ≠ name) →
      (m.get_function st name).1 = Except.ok none) ∧
    ((∀ p ∈ st.types, p.1 ≠ name) →
      (m.get_type st name).1 = Except.ok none) ∧
    (llvmGetNamedFunction st name ≠ 0 →
      (m.get_function st name).1
        = Except.ok (some { value := llvmGetNamedFunction st name })) ∧
    (llvmGetTypeByName st name ≠ 0 →
      (m.get_type st name).1
        = Except.ok (some { ty := llvmGetTypeByName st name })) := by
  intro hnul
  refine ⟨?_, ?_, ?_, ?_⟩
  · intro hab
    have hfind : st.functions.find? (fun p => p.1 = name) = none := by
      rw [List.find?_eq_none]
      intro x hx
      simp [hab x hx]
    simp [Module.get_function, cStringNew, hnul, llvmGetNamedFunction, hfind]
  · intro hab
    have hfind : st.types.find? (fun p => p.1 = name) = none := by
      rw [List.find?_eq_none]
      intro x hx
      simp [hab x hx]
    simp [Module.get_type, cStringNew, hnul, llvmGetTypeByName, hfind]
  · intro hnz
    simp [Module.get_function, cStringNew, hnul, hnz]
  · intro hnz
    simp [Module.get_type, cStringNew, hnul, hnz]

/-- Witness for C6: an undeclared name yields `none`, a declared one
yields `some` of its handle. -/
theorem lookup_absent_is_none_witness :
    (({ module := 1 } : Module).get_function
        { functions := [("f", 5)], types := [], globals := [], target := "",
          dataLayout := "", nextHandle := 5 } "g").1 = Except.ok none ∧
    (({ module := 1 } : Module).get_function
        { functions := [("f", 5)], types := [], globals := [], target := "",
          dataLayout := "", nextHandle := 5 } "f").1
      = Except.ok (some { value := 5 }) :=
  ⟨(lookup_absent_is_none { module := 1 }
      { functions := [("f", 5)], types := [], globals := [], target := "",
        dataLayout := "", nextHandle := 5 } "g" (by decide)).1 (by decide),
   (lookup_absent_is_none { module := 1 }
      { functions := [("f", 5)], types := [], globals := [], target := "",
        dataLayout := "", nextHandle := 5 } "f" (by decide)).2.2.1 (by decide)⟩

/-- C7: for a null-free name, `add_function` followed by `get_function`
with that name on the resulting module state returns `some` of exactly the
function value that `add_function` returned (same handle identity). -/
theorem add_function_then_get_function (m : Module) (st : ModuleState)
    (name : String) (fnTy : Handle) :
    Char.ofNat 0 ∉ name.data →
    ∀ fv st2, (m.add_function st name fnTy).1 = Except.ok (fv, st2) →
      (m.get_function st2 name).1 = Except.ok (some fv) := by
  intro hnul fv st2 hadd
  simp [Module.add_function, cStringNew, hnul, llvmAddFunction] at hadd
  obtain ⟨hfv, hst⟩ := hadd
  subst hst
  simp [Module.get_function, cStringNew, hnul, llvmGetNamedFunction,
    List.find?, ← hfv]

/-- Witness for C7: adding `"f"` to the empty module then looking it up
returns the very handle the addition returned. -/
theorem add_function_then_get_function_witness :
    (({ module := 1 } : Module).get_function
        { functions := [("f", 1)], types := [], globals := [], target := "",
          dataLayout := "", nextHandle := 1 } "f").1
      = Except.ok (some { value := 1 }) :=
  add_function_then_get_function { module := 1 } emptyState "f" 3 (by decide)
    { value := 1 }
    { functions := [("f", 1)], types := [], globals := [], target := "",
      dataLayout := "", nextHandle := 1 } rfl

/-- C8: `write_bitcode_to_file` returns exactly `code == 0` for the status
code reported by the backend serialization call (true iff the code is
zero, false otherwise). -/
theorem write_bitcode_returns_code_eq_zero (m : Module) (writeCode : Nat)
    (path : String) :
    Char.ofNat 0 ∉ path.data →
    (m.write_bitcode_to_file writeCode path).1
      = Except.ok (decide (writeCode = 0)) ∧
    ((m.write_bitcode_to_file writeCode path).1 = Except.ok true ↔ writeCode = 0) := by
  intro hnul
  constructor
  · simp [Module.write_bitcode_to_file, cStringNew, hnul]
  · simp [Module.write_bitcode_to_file, cStringNew, hnul]

/-- Witness for C8: a zero status code yields `true`, a non-zero one
yields `false`. -/
theorem write_bitcode_returns_code_eq_zero_witness :
    (({ module := 1 } : Module).write_bitcode_to_file 0 "out.bc").1
      = Except.ok true ∧
    (({ module := 1 } : Module).write_bitcode_to_file 1 "out.bc").1
      = Except.ok false :=
  ⟨(write_bitcode_returns_code_eq_zero { module := 1 } 0 "out.bc" (by decide)).2.mpr
      rfl,
   (write_bitcode_returns_code_eq_zero { module := 1 } 1 "out.bc" (by decide)).1⟩

/-- C9: `Module::new` aborts fatally on the null handle and stores any
non-null handle; and no public operation replaces the stored handle — every
successful run of any operation leaves the wrapper identical. -/
theorem module_handle_nonnull_invariant :
    Module.new 0 = Except.error Panic.assertFailed ∧
    (∀ h : Handle, h ≠ 0 → Module.new h = Except.ok { module := h }) ∧
    (∀ (op : ModuleOp) (m : Module) (st : ModuleState) (m2 : Module)
        (st2 : ModuleState), Module.runOp op m st = Except.ok (m2, st2) → m2 = m) := by
  refine ⟨rfl, ?_, ?_⟩
  · intro h hh
    simp [Module.new, hh]
  · intro op m st m2 st2 hrun
    cases op <;> simp only [Module.runOp] at hrun <;>
      (try split at hrun) <;> simp_all

/-- Witness for C9: a non-null handle is stored as given, and a concrete
operation run leaves the wrapper unchanged. -/
theorem module_handle_nonnull_invariant_witness :
    Module.new 3 = Except.ok { module := 3 } ∧
    ({ module := 1 } : Module) = { module := 1 } :=
  ⟨module_handle_nonnull_invariant.2.1 3 (by decide),
   module_handle_nonnull_invariant.2.2 ModuleOp.dump { module := 1 } emptyState
     { module := 1 } emptyState rfl⟩

/-- C10: every public operation taking a text argument — `add_function`,
`get_function`, `get_type`, `set_target`, `add_global`,
`write_bitcode_to_file` — panics during CString conversion when the text
holds a NUL byte, before any backend call is made: the result is the
`cstringNul` panic and the emitted foreign-call trace is empty, so the
native state is untouched. -/
theorem nul_name_panics_before_backend_call (m : Module) (st : ModuleState)
    (ty : Handle) (initv : Option Handle) (writeCode : Nat) (name : String) :
    Char.ofNat 0 ∈ name.data →
    m.add_function st name ty = (Except.error Panic.cstringNul, []) ∧
    m.get_function st name = (Except.error Panic.cstringNul, []) ∧
    m.get_type st name = (Except.error Panic.cstringNul, []) ∧
    m.set_target st name = (Except.error Panic.cstringNul, []) ∧
    m.add_global st ty initv name = (Except.error Panic.cstringNul, []) ∧
    m.write_bitcode_to_file writeCode name = (Except.error Panic.cstringNul, []) := by
  intro hnul
  refine ⟨?_, ?_, ?_, ?_, ?_, ?_⟩ <;>
    simp [Module.add_function, Module.get_function, Module.get_type,
      Module.set_target, Module.add_global, Module.write_bitcode_to_file,
      cStringNew, hnul]

/-- Witness for C10 at a name holding a NUL byte. -/
theorem nul_name_panics_before_backend_call_witness :
    (Char.ofNat 0 ∈ "a\x00b".data) ∧
    ({ module := 1 } : Module).get_function emptyState "a\x00b"
      = (Except.error Panic.cstringNul, []) :=
  ⟨by decide,
   (nul_name_panics_before_backend_call { module := 1 } emptyState 0 none 0
      "a\x00b" (by decide)).2.1⟩

end Inkwell
